import Mathlib

/-!
Verification of the hotkey capture and rebinding subsystem of the
hack-interview desktop application (`src/keybinds.py`, `src/gui.py`,
`src/gpt_query.py`), against its design specification.

Python strings are modelled as Lean `String` values (lists of code points);
case mapping is ASCII, which covers every chord string the program
manipulates.  Python dicts are modelled as insertion-ordered association
lists, matching CPython's ordered-dict semantics.  Fallible operations are
modelled with explicit fault parameters or `Except`.
-/

namespace HackInterview

/-! ## Character and string primitives

These model the Python `str` operations used by `keybinds.py`:
`str.strip('<>')`, `str.replace`, `str.lower`, `in` (substring test),
`str.startswith` / `str.endswith`. -/

/-- Character class stripped by `tk_bind.strip('<>')`. -/
def isAngle (c : Char) : Bool := c = '<' || c = '>'

/-- ASCII lower-casing of one character, as Python `str.lower` acts on
the ASCII chord strings of this program. -/
def lowerChar (c : Char) : Char :=
  if 65 ≤ c.toNat ∧ c.toNat ≤ 90 then Char.ofNat (c.toNat + 32) else c

/-- Lower-case a character list (Python `str.lower`). -/
def lowerList (l : List Char) : List Char := l.map lowerChar

/-- The character map realizing Python `str.replace('-', '+')`
(single-character pattern and replacement). -/
def dashToPlus (c : Char) : Char := if c = '-' then '+' else c

/-- Python `str.strip('<>')`: drop the longest run of `<` / `>` characters
from both ends. -/
def stripAngles (l : List Char) : List Char :=
  (((l.dropWhile isAngle).reverse.dropWhile isAngle)).reverse

/-- The per-character action of `_format_hotkey` after stripping:
`replace('-', '+')` followed by `lower()`. -/
def canonChar (c : Char) : Char := lowerChar (dashToPlus c)

/-- Whether `pat` occurs at the start of `l`. -/
def startsWithList : List Char → List Char → Bool
  | _, [] => true
  | [], _ :: _ => false
  | c :: cs, d :: ds => c = d && startsWithList cs ds

/-- Python substring test `pat in s` (for the non-empty patterns used here). -/
def containsSub : List Char → List Char → Bool
  | [], pat => pat.isEmpty
  | l@(_ :: rest), pat => startsWithList l pat || containsSub rest pat

/-- Recursion core of `replaceAll`.  The fuel argument only bounds the
recursion depth so that the definition is structural: every step consumes at
least one character, so fuel equal to the length of the remaining input is
always sufficient and the `0` branch is never reached from `replaceAll`. -/
def replaceAllGo : Nat → List Char → List Char → List Char → List Char
  | 0, l, _, _ => l
  | fuel + 1, l, pat, rep =>
    match l with
    | [] => []
    | c :: rest =>
      if pat ≠ [] && startsWithList (c :: rest) pat then
        rep ++ replaceAllGo fuel (rest.drop (pat.length - 1)) pat rep
      else
        c :: replaceAllGo fuel rest pat rep

/-- Python `str.replace(pat, rep)`: replace every non-overlapping occurrence
of `pat`, scanning left to right.  (The empty-pattern case never arises in
this program.) -/
def replaceAll (l pat rep : List Char) : List Char :=
  replaceAllGo l.length l pat rep

/-! ## keybinds.py: chord formatting -/

/-- A keybind map: logical action name to list of Tk chord strings,
modelling the Python dict of lists (insertion-ordered). -/
abbrev KeybindMap := List (String × List String)

/-- Source `DEFAULT_KEYBINDS` (keybinds.py lines 10-13). -/
def DEFAULT_KEYBINDS : KeybindMap :=
  [("record", ["<control-r>"]), ("analyze", ["<control-a>"])]

/-- The modifier names of `KeybindManager._format_bind`. -/
def formatModifiers : List (List Char) :=
  [['C','o','n','t','r','o','l'], ['S','h','i','f','t'], ['A','l','t'], ['W','i','n']]

/-- One iteration of the loop in `_format_bind`:
`if mod.lower() in bind_str.lower(): bind_str = bind_str.replace(mod.lower(), mod)`. -/
def format_bind_step (bind_str : List Char) (mod : List Char) : List Char :=
  if containsSub (lowerList bind_str) (lowerList mod) then
    replaceAll bind_str (lowerList mod) mod
  else bind_str

/-- Source `KeybindManager._format_bind` (keybinds.py lines 75-81): re-capitalize
any lower-case occurrence of Control / Shift / Alt / Win. -/
def format_bind (bind_str : String) : String :=
  ⟨formatModifiers.foldl format_bind_step bind_str.data⟩

/-- Source `KeybindManager._format_hotkey` (keybinds.py lines 47-50):
`tk_bind.strip('<>').replace('-', '+').lower()`. -/
def format_hotkey (tk_bind : String) : String :=
  ⟨lowerList ((stripAngles tk_bind.data).map dashToPlus)⟩

/-- Source `KeybindDialog._validate_bind` (keybinds.py lines 139-143): wrap the
string in angle brackets when either delimiter is missing; no other check. -/
def validate_bind (bind_str : String) : String :=
  if !(startsWithList bind_str.data ['<']) || !(startsWithList bind_str.data.reverse ['>']) then
    ⟨'<' :: stripAngles bind_str.data ++ ['>']⟩
  else bind_str

/-! ## keybinds.py: persisted configuration file

The configuration file is JSON (`json.dump` / `json.load` of a dict of lists
of strings).  `PyVal` models the JSON-representable Python values; the file
itself is either missing, unparsable text, or a parsed value.  The JSON
serializer is faithful on these values, so a parsed file stores the value
structurally. -/

/-- JSON-representable Python value as handled by `json.load`. -/
inductive PyVal where
  | vstr (s : String)
  | vnum (n : Int)
  | vlist (xs : List PyVal)
  | vdict (kvs : List (String × PyVal))

/-- State of the persisted `keybinds.config` file. -/
inductive FileState where
  | missing
  | unparsable
  | parsed (v : PyVal)

/-- Encoding of a keybind map as written by `json.dump(keybinds, f)`. -/
def encodeMap (m : KeybindMap) : PyVal :=
  .vdict (m.map fun kv => (kv.1, .vlist (kv.2.map .vstr)))

/-- The expression `self._format_bind(b)` demands string methods of `b`;
a non-string element raises (AttributeError), modelled as `none`. -/
def decodeBind : PyVal → Option String
  | .vstr s => some (format_bind s)
  | _ => none

/-- The comprehension `[self._format_bind(b) for b in v]`: iterating a list
formats each element; iterating a string formats each character; iterating
any other value raises, modelled as `none`. -/
def decodeBindList : PyVal → Option (List String)
  | .vlist bs => bs.mapM decodeBind
  | .vstr s => some (s.data.map fun c => format_bind ⟨[c]⟩)
  | _ => none

/-- Source `KeybindManager._load_keybinds` (keybinds.py lines 63-73): on a
missing file, a parse failure, or any exception while converting the loaded
value, return a copy of `DEFAULT_KEYBINDS`; otherwise return exactly the
loaded mapping with every bind formatted. -/
def load_keybinds : FileState → KeybindMap
  | .missing => DEFAULT_KEYBINDS
  | .unparsable => DEFAULT_KEYBINDS
  | .parsed (.vdict kvs) =>
    match kvs.mapM (fun kv => (decodeBindList kv.2).map fun bs => (kv.1, bs)) with
    | some m => m
    | none => DEFAULT_KEYBINDS
  | .parsed _ => DEFAULT_KEYBINDS

/-- Fault model for `save_keybinds`.  `open(self.config_path, 'w')` truncates
the file as soon as it succeeds; a failure of `json.dump` after that point
(e.g. disk full) therefore leaves a truncated or partial file, which no longer
parses as the previous mapping. -/
inductive SaveFault where
  | noFault
  | openFails
  | dumpFails

/-- Source `KeybindManager.save_keybinds` (keybinds.py lines 83-89): write the
JSON encoding of the map and return `True`; on any exception return `False`.
The manager's in-memory `keybinds` attribute is not touched. -/
def save_keybinds (d : FileState) (m : KeybindMap) : SaveFault → Bool × FileState
  | .noFault => (true, .parsed (encodeMap m))
  | .openFails => (false, d)
  | .dumpFails => (false, .unparsable)

/-! ## keybinds.py: hotkey registrar -/

/-- Registrar-relevant state: the manager's `keybinds` and `hotkey_handles`
attributes plus the set of hooks currently installed in the OS keyboard
facility.  A handle is identified by its keyboard-library hotkey string. -/
structure RegState where
  keybinds : KeybindMap
  hotkey_handles : List (String × String)
  osHooks : List String
deriving DecidableEq

/-- Python dict assignment `d[k] = v`: overwrite in place when the key
exists, append otherwise. -/
def dictSet (d : List (String × String)) (k v : String) : List (String × String) :=
  if d.any fun kv => kv.1 = k then
    d.map fun kv => if kv.1 = k then (k, v) else kv
  else d ++ [(k, v)]

/-- The loop `for handle in self.hotkey_handles.values(): keyboard.remove_hotkey(handle)`. -/
def removeHandles (os : List String) (handles : List (String × String)) : List String :=
  handles.foldl (fun acc kv => acc.erase kv.2) os

/-- The expression `self.keybinds[action][0]`; `none` models the KeyError /
IndexError raised when the action is missing or bound to an empty list. -/
def firstBind (m : KeybindMap) (action : String) : Option String :=
  (m.lookup action).bind List.head?

/-- Source `KeybindManager._register_hotkeys` (keybinds.py lines 26-44).
First every previously owned handle is removed; then a single `try` block
adds the `record` hook and afterwards the `analyze` hook; any exception
(OS refusal, missing key) is caught once and printed.  `osRefuses` models
`keyboard.add_hotkey` raising for a given hotkey string.  The returned
flag reports whether the `except` branch ran (an error was printed). -/
def register_hotkeys (st : RegState) (osRefuses : String → Bool) : RegState × Bool :=
  let os0 := removeHandles st.osHooks st.hotkey_handles
  match firstBind st.keybinds "record" with
  | none => ({ st with osHooks := os0 }, true)
  | some rb =>
    let rhk := format_hotkey rb
    if osRefuses rhk then ({ st with osHooks := os0 }, true)
    else
      let os1 := os0 ++ [rhk]
      let h1 := dictSet st.hotkey_handles "record" rhk
      match firstBind st.keybinds "analyze" with
      | none => ({ st with hotkey_handles := h1, osHooks := os1 }, true)
      | some ab =>
        let ahk := format_hotkey ab
        if osRefuses ahk then ({ st with hotkey_handles := h1, osHooks := os1 }, true)
        else
          ({ st with hotkey_handles := dictSet h1 "analyze" ahk, osHooks := os1 ++ [ahk] },
           false)

/-! ## keybinds.py: change-notification callbacks -/

/-- Behavior of one registered listener when invoked: it either returns or
raises. -/
inductive CbBehavior where
  | ok
  | raises
deriving DecidableEq

/-- Source `KeybindManager.notify_callbacks` (keybinds.py lines 59-61):
`for callback in self._callbacks: callback()` — no exception handling.
Returns the labels of the listeners actually invoked, in order, and whether
an exception propagated to the caller (aborting the loop). -/
def notify_callbacks : List (String × CbBehavior) → List String × Bool
  | [] => ([], false)
  | (name, .ok) :: rest =>
    let r := notify_callbacks rest
    (name :: r.1, r.2)
  | (name, .raises) :: _ => ([name], true)

/-! ## keybinds.py: rebind dialog -/

/-- Application state touched by the save path: the manager's attributes
(`keybinds`, `_callbacks`, `hotkey_handles`), the OS hook set, and the
configuration file. -/
structure AppState where
  keybinds : KeybindMap
  callbacks : List (String × CbBehavior)
  hotkey_handles : List (String × String)
  osHooks : List String
  disk : FileState

/-- The registrar view of an application state. -/
def regOf (s : AppState) : RegState :=
  ⟨s.keybinds, s.hotkey_handles, s.osHooks⟩

/-- The `new_binds` dict literal built in `KeybindDialog._save`
(keybinds.py lines 131-134). -/
def newBinds (recordEntry analyzeEntry : String) : KeybindMap :=
  [("record", [validate_bind recordEntry]), ("analyze", [validate_bind analyzeEntry])]

/-- Result of `KeybindDialog._save`: the state afterwards, whether
`self.destroy()` ran (dialog closed), and whether an exception escaped
(a listener raised during `notify_callbacks`). -/
structure DialogOutcome where
  state : AppState
  dialogClosed : Bool
  exceptionRaised : Bool

/-- Source `KeybindDialog._save` (keybinds.py lines 130-137): build
`new_binds` from the two entry widgets through `_validate_bind`, call
`save_keybinds`; when it returns `True`, run `notify_callbacks` and then
destroy the dialog.  When it returns `False` nothing else happens (the
dialog stays open). -/
def dialog_save (s : AppState) (recordEntry analyzeEntry : String) (fault : SaveFault) :
    DialogOutcome :=
  let nb := newBinds recordEntry analyzeEntry
  let r := save_keybinds s.disk nb fault
  let s' := { s with disk := r.2 }
  if r.1 then
    let n := notify_callbacks s.callbacks
    if n.2 then ⟨s', false, true⟩ else ⟨s', true, false⟩
  else ⟨s', false, false⟩

/-! ## gui.py: wiring of the change listener -/

/-- Python error kinds relevant here. -/
inductive PyError where
  | attributeError
deriving DecidableEq

/-- The attributes of a `KeybindManager` instance: the fields assigned in
`__init__` (keybinds.py lines 16-21) and the methods of the class. -/
def keybindManagerAttrs : List String :=
  ["config_path", "keybinds", "_callbacks", "hotkey_handles", "root",
   "add_callback", "_register_hotkeys", "_format_hotkey", "_trigger_record",
   "_trigger_analyze", "notify_callbacks", "_load_keybinds", "_format_bind",
   "save_keybinds"]

/-- Source gui.py line 25: `self.keybind_manager.callbacks.append(self._handle_hotkey)`
in `InterviewGUI.__init__` — an attribute lookup of `callbacks` on the
manager, which raises `AttributeError` when no such attribute exists. -/
def gui_wire_change_listener : Except PyError Unit :=
  if keybindManagerAttrs.contains "callbacks" then Except.ok ()
  else Except.error PyError.attributeError

/-! ## gpt_query.py and gui.py: analysis pipelines -/

/-- Log events emitted on the error paths of the external-service calls and
of the screenshot pipeline. -/
inductive LogEvent where
  | transcribeFailed (e : String)
  | generateFailed (e : String)
  | imageAnalysisFailed (e : String)
  | screenshotAnalysisFailed (e : String)
deriving DecidableEq

/-- Outcomes of the external service calls, per invocation shape: the
transcription result and the generation results for the short and long
variants (audio and image). -/
structure Services where
  transcribeResult : Except String String
  generateResult : Bool → Except String String
  generateImageResult : Bool → Except String String

/-- Source `transcribe_audio` (gpt_query.py lines 33-47): on failure,
`logger.error(...)` then `raise error`; on success return the transcript. -/
def transcribe_audio (svc : Services) : List LogEvent × Except String String :=
  match svc.transcribeResult with
  | Except.ok t => ([], Except.ok t)
  | Except.error e => ([LogEvent.transcribeFailed e], Except.error e)

/-- Source `generate_answer` (gpt_query.py lines 78-91): on failure,
`logger.error(...)` then `raise error`. -/
def generate_answer (svc : Services) (shortAns : Bool) : List LogEvent × Except String String :=
  match svc.generateResult shortAns with
  | Except.ok a => ([], Except.ok a)
  | Except.error e => ([LogEvent.generateFailed e], Except.error e)

/-- Source `generate_image_answer` (gpt_query.py lines 116-166): the whole
body is in a `try`; on failure `logger.error(...)` then `raise error`. -/
def generate_image_answer (svc : Services) (shortAns : Bool) :
    List LogEvent × Except String String :=
  match svc.generateImageResult shortAns with
  | Except.ok a => ([], Except.ok a)
  | Except.error e => ([LogEvent.imageAnalysisFailed e], Except.error e)

/-- The three result panes of the main window; each holds the content last
passed to `_update_markdown`. -/
structure Panes where
  question : String
  shortAnswer : String
  fullAnswer : String
deriving DecidableEq

/-- Source `InterviewGUI._display_screenshot` (gui.py lines 299-323): set the
short/full panes to the generating placeholders, then put the thumbnail in
the question pane; its internal `try` turns a thumbnail failure into the
fallback text, never raising.  The thumbnail html is abstracted as a token. -/
def display_screenshot (thumbOk : Bool) (p : Panes) : Panes :=
  let p1 := { p with shortAnswer := "Generating short answer...",
                     fullAnswer := "Generating detailed answer..." }
  if thumbOk then { p1 with question := "[screenshot thumbnail]" }
  else { p1 with question := "*Loaded screenshot*" }

/-- Source `InterviewGUI._full_screenshot_analysis_pipeline` (gui.py lines
260-285): the body runs under `try`; any exception is logged and the
question pane is set to the generic failure text. -/
def full_screenshot_analysis_pipeline (svc : Services) (thumbOk : Bool) (p : Panes) :
    List LogEvent × Panes :=
  let p1 := display_screenshot thumbOk p
  match generate_image_answer svc true with
  | (lg, Except.error e) =>
    (lg ++ [LogEvent.screenshotAnalysisFailed e],
     { p1 with question := "Analysis failed - check logs" })
  | (lg, Except.ok sa) =>
    match generate_image_answer svc false with
    | (lg2, Except.error e) =>
      (lg ++ lg2 ++ [LogEvent.screenshotAnalysisFailed e],
       { p1 with question := "Analysis failed - check logs" })
    | (lg2, Except.ok fa) =>
      (lg ++ lg2, { p1 with shortAnswer := sa, fullAnswer := fa })

/-- Source `InterviewGUI._full_audio_analysis_pipeline` together with
`_generate_answers` (gui.py lines 287-294 and 325-344): transcribe, show the
transcript, set the generating placeholders, generate both answers, show
them.  There is no `try` anywhere on this path: the third component carries
an exception that escapes the pipeline (and kills its background thread),
leaving the panes as in the second component. -/
def full_audio_analysis_pipeline (svc : Services) (p : Panes) :
    List LogEvent × Panes × Option String :=
  match transcribe_audio svc with
  | (lg, Except.error e) => (lg, p, some e)
  | (lg, Except.ok t) =>
    let p1 := { p with question := t }
    let p2 := { p1 with shortAnswer := "Generating short answer...",
                        fullAnswer := "Generating detailed answer..." }
    match generate_answer svc true with
    | (lg2, Except.error e) => (lg ++ lg2, p2, some e)
    | (lg2, Except.ok sa) =>
      match generate_answer svc false with
      | (lg3, Except.error e) => (lg ++ lg2 ++ lg3, p2, some e)
      | (lg3, Except.ok fa) =>
        (lg ++ lg2 ++ lg3, { p2 with shortAnswer := sa, fullAnswer := fa }, none)

/-! ## Definitions taken from the specification's words

These two definitions are not translations of source code; they state what
the specification asks for, so that the code's behavior can be compared
against them. -/

/-- Modelled from the spec (§3, §4.4): the allowed modifier names. -/
def specAllowedModifiers : List String := ["control", "shift", "alt", "meta"]

/-- Splitting a character list on `-` (cf. Python `str.split('-')`). -/
def splitOnDash : List Char → List (List Char)
  | [] => [[]]
  | c :: rest =>
    let r := splitOnDash rest
    if c = '-' then [] :: r
    else (c :: r.headD []) :: r.tail

/-- Modelled from the spec (§3, §4.4): a chord is well formed when, after
removing the angle-bracket delimiters and splitting on `-`, the final
component is a non-empty primary key that is not itself a modifier and every
earlier component is drawn from the allowed modifier set. -/
def spec_wellFormedChord (s : String) : Bool :=
  let parts := splitOnDash (stripAngles s.data)
  match parts.reverse with
  | [] => false
  | key :: mods =>
    key ≠ [] && !(specAllowedModifiers.contains (String.mk (lowerList key))) &&
      mods.all fun m => specAllowedModifiers.contains (String.mk (lowerList m))

/-- A valid chord input in serialized Tk string form, as produced by the
chord capture widget (keybinds.py lines 184-198): a non-empty selection of
modifiers, in the widget's fixed order, joined with the single primary key
by `-` and wrapped in angle brackets, all lower-cased. -/
def IsValidChordString (s : String) : Prop :=
  ∃ mods key, mods ≠ [] ∧
    (∀ m ∈ mods, m ∈ [String.data "control", String.data "shift", String.data "alt"]) ∧
    key ≠ [] ∧
    s.data = '<' :: (List.intercalate ['-'] (mods ++ [key]) ++ ['>'])

/-! ## Lemmas: characters -/

/-- Evaluation of `Char.ofNat` at a valid code point. -/
theorem toNat_ofNat_valid (n : Nat) (h : n.isValidChar) : (Char.ofNat n).toNat = n := by
  unfold Char.ofNat
  rw [dif_pos h]
  unfold Char.ofNatAux Char.toNat
  simp [UInt32.toNat, BitVec.toNat_ofNatLt]

/-- Lower-casing an upper-case ASCII letter adds 32 to its code point. -/
theorem lowerChar_toNat_of_upper (c : Char) (h1 : 65 ≤ c.toNat) (h2 : c.toNat ≤ 90) :
    (lowerChar c).toNat = c.toNat + 32 := by
  unfold lowerChar
  rw [if_pos ⟨h1, h2⟩]
  exact toNat_ofNat_valid _ (Or.inl (by omega))

/-- Lower-casing fixes anything that is not an upper-case ASCII letter. -/
theorem lowerChar_eq_self (c : Char) (h : ¬(65 ≤ c.toNat ∧ c.toNat ≤ 90)) :
    lowerChar c = c := by
  unfold lowerChar
  exact if_neg h

/-- Character-level lower-casing is idempotent. -/
theorem lowerChar_idem (c : Char) : lowerChar (lowerChar c) = lowerChar c := by
  by_cases h : 65 ≤ c.toNat ∧ c.toNat ≤ 90
  · have ht := lowerChar_toNat_of_upper c h.1 h.2
    apply lowerChar_eq_self
    omega
  · rw [lowerChar_eq_self c h]
    exact lowerChar_eq_self c h

/-- Lower-casing cannot produce a character whose code point is below 97
unless the input already was that character. -/
theorem lowerChar_ne_low (c t : Char) (ht : t.toNat < 97) (hne : c ≠ t) :
    lowerChar c ≠ t := by
  by_cases h : 65 ≤ c.toNat ∧ c.toNat ≤ 90
  · intro he
    have h2 := lowerChar_toNat_of_upper c h.1 h.2
    rw [he] at h2
    omega
  · rw [lowerChar_eq_self c h]
    exact hne

/-- The dash-to-plus map never outputs a dash. -/
theorem dashToPlus_ne_dash (c : Char) : dashToPlus c ≠ '-' := by
  unfold dashToPlus
  split
  · decide
  · assumption

/-- The dash-to-plus map fixes non-dash characters. -/
theorem dashToPlus_eq_self (c : Char) (h : c ≠ '-') : dashToPlus c = c := by
  unfold dashToPlus
  exact if_neg h

/-- The dash-to-plus map never introduces an angle bracket. -/
theorem isAngle_dashToPlus (c : Char) (h : isAngle c = false) :
    isAngle (dashToPlus c) = false := by
  unfold dashToPlus
  split
  · decide
  · exact h

/-- Lower-casing never introduces an angle bracket. -/
theorem isAngle_lowerChar (c : Char) (h : isAngle c = false) :
    isAngle (lowerChar c) = false := by
  unfold isAngle at h ⊢
  simp only [Bool.or_eq_false_iff, decide_eq_false_iff_not] at h ⊢
  exact ⟨lowerChar_ne_low c '<' (by decide) h.1, lowerChar_ne_low c '>' (by decide) h.2⟩

/-- The per-character action of `_format_hotkey` is idempotent. -/
theorem canonChar_idem (c : Char) : canonChar (canonChar c) = canonChar c := by
  unfold canonChar
  rw [dashToPlus_eq_self (lowerChar (dashToPlus c))
      (lowerChar_ne_low (dashToPlus c) '-' (by decide) (dashToPlus_ne_dash c))]
  exact lowerChar_idem (dashToPlus c)

/-- The per-character action of `_format_hotkey` never introduces an angle
bracket. -/
theorem isAngle_canonChar (c : Char) (h : isAngle c = false) :
    isAngle (canonChar c) = false :=
  isAngle_lowerChar _ (isAngle_dashToPlus c h)

/-! ## Lemmas: stripping -/

/-- The first element surviving `dropWhile` fails the predicate. -/
theorem dropWhile_head_not {α : Type} {p : α → Bool} {l : List α} {c : α}
    (h : (l.dropWhile p).head? = some c) : p c = false := by
  have h2 := List.head?_dropWhile_not p l
  rw [h] at h2
  exact h2

/-- A list whose head fails the predicate is fixed by `dropWhile`. -/
theorem dropWhile_eq_self {α : Type} {p : α → Bool} {l : List α}
    (h : ∀ c, l.head? = some c → p c = false) : l.dropWhile p = l := by
  cases l with
  | nil => rfl
  | cons a rest =>
    have ha := h a rfl
    simp [List.dropWhile_cons, ha]

/-- A non-trivial `dropWhile` keeps the last element of the list. -/
theorem getLast?_dropWhile {α : Type} {p : α → Bool} {l : List α}
    (h : l.dropWhile p ≠ []) : (l.dropWhile p).getLast? = l.getLast? := by
  induction l with
  | nil => simp at h
  | cons a rest ih =>
    by_cases hp : p a
    · rw [List.dropWhile_cons, if_pos hp] at h ⊢
      rw [ih h]
      have hrest : rest ≠ [] := by
        intro he
        rw [he] at h
        simp at h
      rw [List.getLast?_cons]
      cases hr : rest.getLast? with
      | none => exact absurd (List.getLast?_eq_none_iff.mp hr) hrest
      | some x => rfl
    · rw [List.dropWhile_cons, if_neg (by simpa using hp)]

/-- The first character of a stripped list is not an angle bracket. -/
theorem stripAngles_head_not {l : List Char} {c : Char}
    (h : (stripAngles l).head? = some c) : isAngle c = false := by
  unfold stripAngles at h
  rw [List.head?_reverse] at h
  have hne : (l.dropWhile isAngle).reverse.dropWhile isAngle ≠ [] := by
    intro he
    rw [he] at h
    simp at h
  rw [getLast?_dropWhile hne, List.getLast?_reverse] at h
  exact dropWhile_head_not h

/-- The last character of a stripped list is not an angle bracket. -/
theorem stripAngles_getLast_not {l : List Char} {c : Char}
    (h : (stripAngles l).getLast? = some c) : isAngle c = false := by
  unfold stripAngles at h
  rw [List.getLast?_reverse] at h
  exact dropWhile_head_not h

/-- Stripping fixes a list with no angle bracket at either end. -/
theorem stripAngles_eq_self {l : List Char}
    (hh : ∀ c, l.head? = some c → isAngle c = false)
    (hl : ∀ c, l.getLast? = some c → isAngle c = false) :
    stripAngles l = l := by
  unfold stripAngles
  rw [dropWhile_eq_self hh]
  rw [dropWhile_eq_self fun c hc => hl c (by rwa [List.head?_reverse] at hc)]
  exact List.reverse_reverse l

/-! ## Lemmas: canonicalization -/

/-- Character view of `format_hotkey`. -/
theorem format_hotkey_data (s : String) :
    (format_hotkey s).data = (stripAngles s.data).map canonChar := by
  unfold format_hotkey lowerList
  show List.map lowerChar (List.map dashToPlus (stripAngles s.data)) = _
  rw [List.map_map]
  rfl

/-- An already-canonicalized character list is fixed by stripping. -/
theorem stripAngles_map_canonChar (l : List Char) :
    stripAngles ((stripAngles l).map canonChar) = (stripAngles l).map canonChar := by
  apply stripAngles_eq_self
  · intro c hc
    rw [List.head?_map] at hc
    cases hu : (stripAngles l).head? with
    | none => rw [hu] at hc; simp at hc
    | some c0 =>
      rw [hu] at hc
      simp only [Option.map_some'] at hc
      rw [← Option.some_inj.mp hc]
      exact isAngle_canonChar c0 (stripAngles_head_not hu)
  · intro c hc
    rw [List.getLast?_map] at hc
    cases hu : (stripAngles l).getLast? with
    | none => rw [hu] at hc; simp at hc
    | some c0 =>
      rw [hu] at hc
      simp only [Option.map_some'] at hc
      rw [← Option.some_inj.mp hc]
      exact isAngle_canonChar c0 (stripAngles_getLast_not hu)

/-- The canonicalization `_format_hotkey` is idempotent on every string:
stripping, dash replacement and lower-casing are each stable on its
output. -/
theorem format_hotkey_idem_all (s : String) :
    format_hotkey (format_hotkey s) = format_hotkey s := by
  apply String.ext
  rw [format_hotkey_data, format_hotkey_data, stripAngles_map_canonChar, List.map_map]
  apply List.map_congr_left
  intro c _
  exact canonChar_idem c

/-! ## Lemmas: configuration round trip -/

/-- Decoding the encoding of a bind list formats each bind. -/
theorem decodeBindList_encode (bs : List String) :
    decodeBindList (.vlist (bs.map .vstr)) = some (bs.map format_bind) := by
  induction bs with
  | nil => rfl
  | cons b rest ih =>
    show (List.map PyVal.vstr (b :: rest)).mapM decodeBind = _
    simp only [List.map_cons, List.mapM_cons]
    show (some (format_bind b) >>= fun x =>
      ((rest.map PyVal.vstr).mapM decodeBind) >>= fun xs => pure (x :: xs)) = _
    rw [show (List.map PyVal.vstr rest).mapM decodeBind = some (rest.map format_bind) from ih]
    rfl

/-- Decoding the encoding of a keybind map succeeds and formats each bind. -/
theorem mapM_decode_encode (m : KeybindMap) :
    (m.map fun kv => (kv.1, PyVal.vlist (kv.2.map .vstr))).mapM
        (fun kv => (decodeBindList kv.2).map fun bs => (kv.1, bs)) =
      some (m.map fun kv => (kv.1, kv.2.map format_bind)) := by
  induction m with
  | nil => rfl
  | cons kv rest ih =>
    simp only [List.map_cons, List.mapM_cons, decodeBindList_encode, ih]
    rfl

/-- Loading an encoded map returns it with every bind formatted. -/
theorem load_encode (m : KeybindMap) :
    load_keybinds (.parsed (encodeMap m)) =
      m.map fun kv => (kv.1, kv.2.map format_bind) := by
  show (match (m.map fun kv => (kv.1, PyVal.vlist (kv.2.map .vstr))).mapM
          (fun kv => (decodeBindList kv.2).map fun bs => (kv.1, bs)) with
        | some m' => m'
        | none => DEFAULT_KEYBINDS) = _
  rw [mapM_decode_encode]

/-! ## Claim theorems -/

/-- Claim C1 (code bug evaluation): the change-notification path cannot cause
the registrar to re-register.  The attribute access
`self.keybind_manager.callbacks` performed by `InterviewGUI.__init__`
(gui.py line 25) raises `AttributeError` — the manager defines `_callbacks`
and `add_callback`, never `callbacks` — so no listener is ever registered,
and `notify_callbacks` over the empty listener list invokes nothing. -/
theorem change_listener_wiring_broken :
    gui_wire_change_listener = Except.error PyError.attributeError ∧
    keybindManagerAttrs.contains "callbacks" = false ∧
    notify_callbacks [] = ([], false) := by
  refine ⟨?_, by decide, rfl⟩
  show (if keybindManagerAttrs.contains "callbacks" then Except.ok ()
        else Except.error PyError.attributeError) = _
  rw [show keybindManagerAttrs.contains "callbacks" = false by decide]
  rfl

/-- Claim C2 (amended): load returns the full built-in default map on a
missing or unparsable file, but when the file parses to a mapping it returns
exactly that mapping with each bind formatted — an action absent from the
file is absent from the result, with no per-action fallback. -/
theorem load_keybinds_no_per_action_fallback (m : KeybindMap) :
    load_keybinds .missing = DEFAULT_KEYBINDS ∧
    load_keybinds .unparsable = DEFAULT_KEYBINDS ∧
    load_keybinds (.parsed (encodeMap m)) = m.map fun kv => (kv.1, kv.2.map format_bind) :=
  ⟨rfl, rfl, load_encode m⟩

/-- Claim C2 (counterexample): a configuration file parsing to the empty
mapping makes `load` return a map binding neither `record` nor `analyze`,
refuting the per-action default fallback. -/
theorem load_keybinds_counterexample :
    load_keybinds (.parsed (.vdict [])) = [] ∧
    (load_keybinds (.parsed (.vdict []))).lookup "record" = none ∧
    (load_keybinds (.parsed (.vdict []))).lookup "analyze" = none :=
  ⟨rfl, rfl, rfl⟩

/-- Claim C3 (amended): `save_keybinds` reports failure with a `False`
return rather than an exception, and a failure to open leaves the previous
file intact; but the overwrite is not atomic — `open(path, 'w')` truncates
before `json.dump` runs, so a failure during the dump leaves a truncated
file in place of the previous mapping. -/
theorem save_keybinds_fault_behavior (d : FileState) (m : KeybindMap) (fault : SaveFault) :
    ((save_keybinds d m fault).1 = false ↔ fault ≠ SaveFault.noFault) ∧
    (save_keybinds d m .openFails).2 = d ∧
    (save_keybinds d m .dumpFails).2 = FileState.unparsable := by
  refine ⟨?_, rfl, rfl⟩
  cases fault <;> simp [save_keybinds]

/-- Claim C3 (counterexample): a dump failure over a previously persisted
default mapping returns `False` but does not leave the previous on-disk
mapping intact. -/
theorem save_keybinds_not_atomic_counterexample :
    (save_keybinds (.parsed (encodeMap DEFAULT_KEYBINDS)) DEFAULT_KEYBINDS .dumpFails).1
      = false ∧
    (save_keybinds (.parsed (encodeMap DEFAULT_KEYBINDS)) DEFAULT_KEYBINDS .dumpFails).2
      ≠ FileState.parsed (encodeMap DEFAULT_KEYBINDS) := by
  refine ⟨rfl, fun h => ?_⟩
  exact FileState.noConfusion h

/-- Claim C4 (amended): when installing the hook for the `record` action
fails, the single `try` block around both registrations makes the registrar
log the failure and stop — the `analyze` hook is not installed and the
handle table is left unchanged; only the removal of the previously owned
hooks has happened. -/
theorem register_hotkeys_failure_aborts (st : RegState) (osRefuses : String → Bool)
    (rb : String)
    (h1 : firstBind st.keybinds "record" = some rb)
    (h2 : osRefuses (format_hotkey rb) = true) :
    register_hotkeys st osRefuses =
      ({ st with osHooks := removeHandles st.osHooks st.hotkey_handles }, true) := by
  unfold register_hotkeys
  rw [h1]
  simp [h2]

/-- Claim C4 (witness): with the default map and an OS refusing exactly the
`record` chord, registration aborts with nothing installed. -/
theorem register_hotkeys_failure_aborts_witness :
    firstBind DEFAULT_KEYBINDS "record" = some "<control-r>" ∧
    (fun h => h = "control+r" : String → Bool) (format_hotkey "<control-r>") = true ∧
    register_hotkeys ⟨DEFAULT_KEYBINDS, [], []⟩ (fun h => h = "control+r") =
      (⟨DEFAULT_KEYBINDS, [], []⟩, true) :=
  ⟨by decide, by decide,
   register_hotkeys_failure_aborts ⟨DEFAULT_KEYBINDS, [], []⟩ (fun h => h = "control+r")
     "<control-r>" (by decide) (by decide)⟩

/-- Claim C4 (counterexample): when the OS refuses the `record` chord of the
default map, the `analyze` hook of the same map is not installed, refuting
that the remaining actions are still registered. -/
theorem register_hotkeys_counterexample :
    (register_hotkeys ⟨DEFAULT_KEYBINDS, [], []⟩ fun h => h = "control+r") =
      (⟨DEFAULT_KEYBINDS, [], []⟩, true) ∧
    "control+a" ∉
      (register_hotkeys ⟨DEFAULT_KEYBINDS, [], []⟩ fun h => h = "control+r").1.osHooks := by
  refine ⟨by decide, by decide⟩

/-- Claim C5 (amended): `notify_callbacks` invokes listeners in insertion
order, but a raising listener aborts the loop: listeners registered after it
are not invoked and the exception propagates to the caller. -/
theorem notify_callbacks_behavior :
    (∀ cbs : List (String × CbBehavior), (∀ kv ∈ cbs, kv.2 = CbBehavior.ok) →
        notify_callbacks cbs = (cbs.map Prod.fst, false)) ∧
    (∀ (pre : List (String × CbBehavior)) (name : String)
        (post : List (String × CbBehavior)),
        (∀ kv ∈ pre, kv.2 = CbBehavior.ok) →
        notify_callbacks (pre ++ (name, CbBehavior.raises) :: post) =
          (pre.map Prod.fst ++ [name], true)) := by
  constructor
  · intro cbs h
    induction cbs with
    | nil => rfl
    | cons kv rest ih =>
      obtain ⟨name, b⟩ := kv
      have hb : b = CbBehavior.ok := h (name, b) (List.mem_cons_self _ _)
      subst hb
      simp only [notify_callbacks, ih fun kv hm => h kv (List.mem_cons_of_mem _ hm)]
      rfl
  · intro pre name post h
    induction pre with
    | nil => rfl
    | cons kv rest ih =>
      obtain ⟨n, b⟩ := kv
      have hb : b = CbBehavior.ok := h (n, b) (List.mem_cons_self _ _)
      subst hb
      simp only [List.cons_append, notify_callbacks, List.append_eq,
        ih fun kv hm => h kv (List.mem_cons_of_mem _ hm)]
      rfl

/-- Claim C5 (witness): a single well-behaved listener runs and returns;
a raising first listener stops the loop before the second. -/
theorem notify_callbacks_behavior_witness :
    notify_callbacks [("registrar", CbBehavior.ok)] = (["registrar"], false) ∧
    notify_callbacks [("first", CbBehavior.raises), ("second", CbBehavior.ok)] =
      (["first"], true) :=
  ⟨notify_callbacks_behavior.1 [("registrar", CbBehavior.ok)] (by decide),
   notify_callbacks_behavior.2 [] "first" [("second", CbBehavior.ok)] (by decide)⟩

/-- Claim C5 (counterexample): with a raising first listener, the second
registered listener is never invoked and the exception propagates, refuting
that a failing listener does not prevent later listeners. -/
theorem notify_callbacks_counterexample :
    notify_callbacks [("first", CbBehavior.raises), ("second", CbBehavior.ok)] =
      (["first"], true) ∧
    "second" ∉ (notify_callbacks
      [("first", CbBehavior.raises), ("second", CbBehavior.ok)]).1 := by
  refine ⟨rfl, by decide⟩

/-- Claim C6 (amended): saving then loading does not return the saved map
itself but the saved map with every chord re-capitalized by `_format_bind`;
equality holds exactly for maps already in formatted form. -/
theorem save_load_roundtrip_formats (d : FileState) (m : KeybindMap) :
    load_keybinds (save_keybinds d m .noFault).2 =
      m.map fun kv => (kv.1, kv.2.map format_bind) :=
  load_encode m

/-- Claim C6 (counterexample): saving the (lower-case) default map and
loading returns capitalized chords, not the saved map. -/
theorem save_load_roundtrip_counterexample :
    load_keybinds (save_keybinds .missing DEFAULT_KEYBINDS .noFault).2 =
      [("record", ["<Control-r>"]), ("analyze", ["<Control-a>"])] ∧
    load_keybinds (save_keybinds .missing DEFAULT_KEYBINDS .noFault).2 ≠ DEFAULT_KEYBINDS := by
  exact ⟨by decide, by decide⟩

/-- Claim C7 (amended): a failing transcription or generation call is logged
and re-raised by `gpt_query`; the screenshot pipeline catches any such
exception and displays the generic failure message; but the audio pipeline
has no handler — the exception escapes it (killing its background thread)
and no failure message is displayed. -/
theorem service_failure_handling (e : String) (p : Panes)
    (tr : Except String String)
    (gen : Bool → Except String String) (genI : Bool → Except String String)
    (thumbOk : Bool) :
    transcribe_audio ⟨Except.error e, gen, genI⟩ =
      ([LogEvent.transcribeFailed e], Except.error e) ∧
    full_audio_analysis_pipeline ⟨Except.error e, gen, genI⟩ p =
      ([LogEvent.transcribeFailed e], p, some e) ∧
    full_screenshot_analysis_pipeline ⟨tr, gen, fun _ => Except.error e⟩ thumbOk p =
      ([LogEvent.imageAnalysisFailed e, LogEvent.screenshotAnalysisFailed e],
        { display_screenshot thumbOk p with question := "Analysis failed - check logs" }) := by
  refine ⟨rfl, rfl, ?_⟩
  simp [full_screenshot_analysis_pipeline, generate_image_answer]

/-- Claim C7 (counterexample): a failing transcription makes the audio
analysis pipeline propagate the exception with every pane untouched — no
generic failure message is displayed anywhere. -/
theorem audio_pipeline_crash_counterexample :
    full_audio_analysis_pipeline
        ⟨Except.error "boom", fun _ => Except.ok "short", fun _ => Except.ok "image"⟩
        ⟨"q", "s", "f"⟩ =
      ([LogEvent.transcribeFailed "boom"], ⟨"q", "s", "f"⟩, some "boom") ∧
    (full_audio_analysis_pipeline
        ⟨Except.error "boom", fun _ => Except.ok "short", fun _ => Except.ok "image"⟩
        ⟨"q", "s", "f"⟩).2.1.question ≠ "Analysis failed - check logs" :=
  ⟨rfl, by decide⟩

/-- Claim C8 (amended): on Save the dialog applies only `_validate_bind` —
which wraps the collected string in angle brackets when a delimiter is
missing and checks nothing else — and persists the result unconditionally
for every input, well formed or not. -/
theorem dialog_save_no_validation (s : AppState) (re ae : String) :
    (dialog_save s re ae .noFault).state.disk =
      FileState.parsed
        (encodeMap [("record", [validate_bind re]), ("analyze", [validate_bind ae])]) := by
  cases hn : (notify_callbacks s.callbacks).2 <;>
    simp [dialog_save, newBinds, save_keybinds, hn]

/-- Claim C8 (counterexample): an empty captured chord passes
`_validate_bind` as `<>` — no primary key at all — and is persisted while
the dialog closes as on success. -/
theorem invalid_chord_persisted_counterexample :
    validate_bind "" = "<>" ∧
    spec_wellFormedChord "<>" = false ∧
    (dialog_save ⟨DEFAULT_KEYBINDS, [], [], [], .missing⟩ "" "<control-a>" .noFault).state.disk
      = FileState.parsed (encodeMap [("record", ["<>"]), ("analyze", ["<control-a>"])]) ∧
    (dialog_save ⟨DEFAULT_KEYBINDS, [], [], [], .missing⟩ "" "<control-a>" .noFault).dialogClosed
      = true := by
  refine ⟨by decide, by decide, rfl, rfl⟩

/-- Claim C9: for every valid chord input — a non-empty modifier selection
plus one primary key in serialized Tk string form — the canonicalization
`_format_hotkey` is idempotent (it is in fact idempotent on every string,
by `format_hotkey_idem_all`). -/
theorem canonicalization_idempotent (s : String) (h : IsValidChordString s) :
    format_hotkey (format_hotkey s) = format_hotkey s :=
  format_hotkey_idem_all s

/-- Claim C9 (witness): idempotence at the concrete valid chord
`<control-shift-r>`. -/
theorem canonicalization_idempotent_witness :
    IsValidChordString "<control-shift-r>" ∧
    format_hotkey (format_hotkey "<control-shift-r>") = format_hotkey "<control-shift-r>" := by
  have hv : IsValidChordString "<control-shift-r>" :=
    ⟨[String.data "control", String.data "shift"], String.data "r",
     by decide, by decide, by decide, by decide⟩
  exact ⟨hv, canonicalization_idempotent "<control-shift-r>" hv⟩

/-- Claim C10: a successful dialog save rewrites only the configuration
file — the resulting state differs from the old one in the `disk` field
alone, the manager's in-memory `keybinds` is unchanged under every fault
outcome, and a subsequent hotkey registration therefore behaves exactly as
it would from the startup bindings. -/
theorem dialog_save_keeps_memory_keybinds (s : AppState) (re ae : String) :
    ((dialog_save s re ae .noFault).state =
      { s with disk := FileState.parsed (encodeMap (newBinds re ae)) }) ∧
    (∀ fault, (dialog_save s re ae fault).state.keybinds = s.keybinds) ∧
    (∀ osRefuses, register_hotkeys (regOf (dialog_save s re ae .noFault).state) osRefuses =
      register_hotkeys (regOf s) osRefuses) := by
  have hstate : (dialog_save s re ae .noFault).state =
      { s with disk := FileState.parsed (encodeMap (newBinds re ae)) } := by
    cases hn : (notify_callbacks s.callbacks).2 <;> simp [dialog_save, save_keybinds, hn]
  refine ⟨hstate, ?_, ?_⟩
  · intro fault
    cases fault with
    | noFault => rw [hstate]
    | openFails => rfl
    | dumpFails => rfl
  · intro osRefuses
    rw [hstate]
    rfl

end HackInterview
